import Mathlib

/- Verification of the Windows ML development environment setup scripts:
   a shallow embedding of `setup_environment.py` (the pipeline orchestrator),
   `test_cuda.py` (the CUDA capability prober) and `verify.py` (the
   installation verifier), together with theorems about their control flow,
   exit codes, aggregation of check results and error handling.

   External processes, the filesystem, environment variables and the
   interactive operator are modeled as explicit world parameters; the text
   processing done by the scripts is modeled by Python-like string
   primitives written by structural recursion on `List Char` so that all
   concrete evaluations reduce in the kernel. -/

namespace Py

/-- Whether `pat` is a prefix of `hay` (used to detect substring occurrences). -/
def isPrefixC : List Char → List Char → Bool
  | [], _ => true
  | _ :: _, [] => false
  | a :: as, b :: bs => a == b && isPrefixC as bs

/-- Whether `pat` occurs as a contiguous substring of `hay` (Python `pat in hay`). -/
def containsC (pat : List Char) : List Char → Bool
  | [] => isPrefixC pat []
  | c :: rest => isPrefixC pat (c :: rest) || containsC pat rest

def pyContains (hay pat : String) : Bool := containsC pat.data hay.data

/-- Python `s.split(sep)` for a single-character separator: keeps empty pieces. -/
def splitCharAux (sep : Char) : List Char → List Char → List (List Char)
  | [], acc => [acc.reverse]
  | c :: rest, acc =>
      if c == sep then acc.reverse :: splitCharAux sep rest []
      else splitCharAux sep rest (c :: acc)

def pySplitChar (s : String) (sep : Char) : List String :=
  (splitCharAux sep s.data []).map String.mk

def isWS (c : Char) : Bool := c == ' ' || c == '\t' || c == '\n' || c == '\r'

def dropWS : List Char → List Char
  | [] => []
  | c :: rest => if isWS c then dropWS rest else c :: rest

/-- Python `s.strip()`: remove leading and trailing whitespace. -/
def trimC (s : List Char) : List Char := ((dropWS ((dropWS s).reverse)).reverse)

def pyStrip (s : String) : String := String.mk (trimC s.data)

def pyUpper (s : String) : String := String.mk (s.data.map Char.toUpper)

def pyLower (s : String) : String := String.mk (s.data.map Char.toLower)

/-- The suffix of `hay` strictly after the first occurrence of `pat`
    (`none` when `pat` does not occur). -/
def afterSub (pat : List Char) : List Char → Option (List Char)
  | [] => if isPrefixC pat [] then some [] else none
  | c :: rest =>
      if isPrefixC pat (c :: rest) then some (List.drop pat.length (c :: rest))
      else afterSub pat rest

/-- The prefix of `hay` up to (excluding) the first occurrence of `pat`. -/
def uptoSub (pat : List Char) : List Char → List Char
  | [] => []
  | c :: rest => if isPrefixC pat (c :: rest) then [] else c :: uptoSub pat rest

/-- Python `hay.split(pat)[1]` for a multi-character separator: the segment
    between the first and second occurrences of `pat` (to the end when `pat`
    occurs once); `none` models the IndexError raised when `pat` is absent. -/
def pySplitIndex1 (hay pat : String) : Option String :=
  match afterSub pat.data hay.data with
  | none => none
  | some rest => some (String.mk (uptoSub pat.data rest))

/-- Python `s.split()` with no argument: split on whitespace runs, no empties. -/
def splitWSAux : List Char → List Char → List (List Char)
  | [], [] => []
  | [], acc => [acc.reverse]
  | c :: rest, acc =>
      if isWS c then
        (if acc.isEmpty then splitWSAux rest [] else acc.reverse :: splitWSAux rest [])
      else splitWSAux rest (c :: acc)

def pySplitWS (s : String) : List String := (splitWSAux s.data []).map String.mk

/-- Python `s.splitlines()` restricted to the `\n` separator: like splitting
    on `\n` but without a final empty piece, and `[]` on the empty string. -/
def pySplitLines (s : String) : List String :=
  if s.data.isEmpty then []
  else
    let ps := pySplitChar s '\n'
    if ps.getLast? = some "" then ps.dropLast else ps

def pyStartsWith (s pat : String) : Bool := isPrefixC pat.data s.data

/-- Model of os.path.join on the supported OS (backslash separator). -/
def pyJoin (a b : String) : String := a ++ "\\" ++ b

end Py

/- ===================== Shared subprocess model ===================== -/

/-- The `(stdout, stderr, returncode)` triple produced by one external
    process invocation (`subprocess.run` with captured pipes). -/
structure CmdResult where
  stdout : String
  stderr : String
  returncode : Int
deriving DecidableEq, Repr

/-- How one external command behaves when invoked: it either terminates with
    a result or the `subprocess.run` call raises an exception (message `e`). -/
inductive CmdBehavior
  | ok : CmdResult → CmdBehavior
  | raises : String → CmdBehavior

/- ===================== test_cuda.py (capability prober) ===================== -/

namespace TestCuda

/-- Outcome of `import torch` / `torch.cuda` probing in `test_pytorch_cuda`:
    PyTorch missing (ImportError), some other exception while testing, CUDA
    unavailable, or CUDA available (timing comparison succeeds). -/
inductive TorchStatus
  | notInstalled
  | raisesOther
  | cudaUnavailable
  | cudaAvailable
deriving DecidableEq, Repr

/-- The environment `test_cuda.py` runs against. `run` gives the behavior of
    each shell command string; `platformSystem` is `platform.system()`;
    `isAdmin` the elevation test; `envTEMP` the `TEMP` environment variable. -/
structure ProbeWorld where
  platformSystem : String
  isAdmin : Bool
  run : String → CmdBehavior
  torch : TorchStatus
  envTEMP : Option String

/-- Model of run_command: runs a command, strips stdout/stderr; any exception from
    the subprocess call is caught and mapped to `("", str(e), -1)`. -/
def run_command (w : ProbeWorld) (command : String) : CmdResult :=
  match w.run command with
  | CmdBehavior.ok r => ⟨Py.pyStrip r.stdout, Py.pyStrip r.stderr, r.returncode⟩
  | CmdBehavior.raises e => ⟨"", e, -1⟩

/-- Accumulator of `check_cuda_driver`'s line scan:
    `(driver_version, cuda_version, gpu_name)`. -/
def SmiInfo : Type := Option String × Option String × Option String

/-- One iteration of the `for line in stdout.split('\n')` loop of
    `check_cuda_driver`. `line.split(':')[1]` raises IndexError when the
    line has no colon, modeled as `Except.error`. -/
def parse_smi_line (st : SmiInfo) (line : String) : Except String SmiInfo :=
  match (if Py.pyContains line "Driver Version" then
           match (Py.pySplitChar line ':')[1]? with
           | none => Except.error "IndexError"
           | some v => Except.ok (some (Py.pyStrip v))
         else Except.ok st.1) with
  | Except.error e => Except.error e
  | Except.ok dv =>
    match (if Py.pyContains line "CUDA Version" then
             match (Py.pySplitChar line ':')[1]? with
             | none => Except.error "IndexError"
             | some v => Except.ok (some (Py.pyStrip v))
           else Except.ok st.2.1) with
    | Except.error e => Except.error e
    | Except.ok cv =>
      let gpu :=
        if Py.pyContains line "NVIDIA" &&
           (Py.pyContains line "RTX" || Py.pyContains line "GTX" ||
            Py.pyContains line "Quadro" || Py.pyContains line "Tesla")
        then some (Py.pyStrip line) else st.2.2
      Except.ok (dv, cv, gpu)

def foldSmi : SmiInfo → List String → Except String SmiInfo
  | st, [] => Except.ok st
  | st, l :: rest =>
    match parse_smi_line st l with
    | Except.error e => Except.error e
    | Except.ok st2 => foldSmi st2 rest

/-- Model of check_cuda_driver: runs `nvidia-smi`; non-zero exit yields `ok false`;
    otherwise the output lines are scanned for version labels (the extracted
    values are only logged) and the check yields `ok true`. The scan can
    raise an uncaught IndexError, modeled as `Except.error`. -/
def check_cuda_driver (w : ProbeWorld) : Except String Bool :=
  let r := run_command w "nvidia-smi"
  if r.returncode ≠ 0 then Except.ok false
  else
    match foldSmi (none, none, none) (Py.pySplitChar r.stdout '\n') with
    | Except.error e => Except.error e
    | Except.ok _info => Except.ok true

/-- Model of check_nvcc: succeeds exactly when `nvcc --version` exits 0
    (its output is only logged). -/
def check_nvcc (w : ProbeWorld) : Bool :=
  (run_command w "nvcc --version").returncode == 0

/-- Model of test_pytorch_cuda: true only when torch imports and
    `torch.cuda.is_available()`; ImportError and any other exception are
    caught and yield false; the timing comparison only affects logging. -/
def test_pytorch_cuda (w : ProbeWorld) : Bool :=
  match w.torch with
  | TorchStatus.cudaAvailable => true
  | _ => false

/-- Model of temp_dir = os.path.join(os.environ.get('TEMP', '.'), 'cuda_test')`. -/
def temp_dir (w : ProbeWorld) : String :=
  Py.pyJoin (w.envTEMP.getD ".") "cuda_test"

def cuda_file (w : ProbeWorld) : String := Py.pyJoin (temp_dir w) "vector_add.cu"

def output_file (w : ProbeWorld) : String := Py.pyJoin (temp_dir w) "vector_add.exe"

def compile_cmd (w : ProbeWorld) : String :=
  "nvcc \"" ++ cuda_file w ++ "\" -o \"" ++ output_file w ++ "\""

def exec_cmd (w : ProbeWorld) : String := "\"" ++ output_file w ++ "\""

/-- Model of generate_cuda_program: writes the CUDA source (the write is modeled as
    succeeding), compiles it and runs the binary; fails on a non-zero compile
    or run exit code, and otherwise succeeds exactly when the program output
    contains the literal marker "Test PASSED". -/
def generate_cuda_program (w : ProbeWorld) : Bool :=
  if (run_command w (compile_cmd w)).returncode ≠ 0 then false
  else if (run_command w (exec_cmd w)).returncode ≠ 0 then false
  else Py.pyContains (run_command w (exec_cmd w)).stdout "Test PASSED"

/-- The boolean CLI flags of `test_cuda.py`. -/
structure TestArgs where
  driver : Bool
  nvcc : Bool
  pytorch : Bool
  compile : Bool
  all : Bool
deriving DecidableEq, Repr

def anyFlagT (a : TestArgs) : Bool :=
  a.driver || a.nvcc || a.pytorch || a.compile || a.all

/-- One `if args.X or args.all:` block of `main`: when the check is
    selected, run it, AND its result into `all_passed` and record the
    `(name, result)` pair for the summary; otherwise leave state unchanged. -/
def runStep (sel : Bool) (name : String) (result : Bool) (st : Bool × List (String × Bool)) :
    Bool × List (String × Bool) :=
  if sel then (st.1 && result, st.2 ++ [(name, result)]) else st

/-- Model of main of test_cuda.py. When no flag is given, `args.all` is forced on.
    The non-Windows and non-admin cases only log warnings. Each selected
    check is run in order, its result is ANDed into `all_passed`, and the
    pair `(name, result)` is recorded; the exit code is 0 iff `all_passed`.
    An uncaught exception from `check_cuda_driver` aborts the run
    (`Except.error`). -/
def adjustArgs (a0 : TestArgs) : TestArgs :=
  if anyFlagT a0 then a0 else ⟨a0.driver, a0.nvcc, a0.pytorch, a0.compile, true⟩

/-- The check sequence of `main`, after the no-flag adjustment. -/
def runChecks (w : ProbeWorld) (a : TestArgs) : Except String (Nat × List (String × Bool)) :=
  match (if a.driver || a.all then
           match check_cuda_driver w with
           | Except.error e => Except.error e
           | Except.ok b => Except.ok (some b)
         else Except.ok none) with
  | Except.error e => Except.error e
  | Except.ok dres =>
    let st : Bool × List (String × Bool) :=
      match dres with
      | some b => (true && b, [("driver", b)])
      | none => (true, [])
    let st := runStep (a.nvcc || a.all) "nvcc" (check_nvcc w) st
    let st := runStep (a.pytorch || a.all) "pytorch" (test_pytorch_cuda w) st
    let st := runStep (a.compile || a.all) "compile" (generate_cuda_program w) st
    Except.ok ((if st.1 then 0 else 1), st.2)

def mainT (w : ProbeWorld) (a0 : TestArgs) : Except String (Nat × List (String × Bool)) :=
  runChecks w (adjustArgs a0)

end TestCuda

def wOkT : TestCuda.ProbeWorld :=
  ⟨"Linux", true, fun _ => CmdBehavior.ok ⟨"Test PASSED", "", 0⟩,
   TestCuda.TorchStatus.cudaAvailable, some "T"⟩

def wFailT : TestCuda.ProbeWorld :=
  ⟨"Windows", true, fun _ => CmdBehavior.ok ⟨"", "no such command", 1⟩,
   TestCuda.TorchStatus.notInstalled, none⟩

def wCrashT : TestCuda.ProbeWorld :=
  ⟨"Windows", true,
   fun c => if c = "nvidia-smi" then CmdBehavior.ok ⟨"Driver Version", "", 0⟩
            else CmdBehavior.ok ⟨"", "", 0⟩,
   TestCuda.TorchStatus.cudaAvailable, none⟩

/- ===================== verify.py (installation verifier) ===================== -/

namespace Verify

/-- The environment `verify.py` runs against. `run` gives each shell
    command's behavior; `pathVar` is `os.environ['PATH']`; `cudaPath` is the
    optional `CUDA_PATH` variable; `pathExists` models `os.path.exists`;
    `globHit` decides whether a glob over a relative pattern would find a
    match (absolute patterns never reach it: pathlib rejects them);
    `findSpec` models `importlib.util.find_spec(m) is not None`; `importOk`
    models whether `importlib.import_module(m)` succeeds (versus
    ImportError); `torchCudaAvailable` is `torch.cuda.is_available()`. -/
structure VWorld where
  platformSystem : String
  isAdmin : Bool
  run : String → CmdBehavior
  pathVar : String
  cudaPath : Option String
  pathExists : String → Bool
  globHit : String → Bool
  findSpec : String → Bool
  importOk : String → Bool
  torchCudaAvailable : Bool

/-- Model of run_command of verify.py (same code as in test_cuda.py). -/
def run_command (w : VWorld) (command : String) : CmdResult :=
  match w.run command with
  | CmdBehavior.ok r => ⟨Py.pyStrip r.stdout, Py.pyStrip r.stderr, r.returncode⟩
  | CmdBehavior.raises e => ⟨"", e, -1⟩

/-- Model of check_path_env: splits PATH on the OS path separator (";" on the
    supported OS) and looks for the pattern case-insensitively. The `name`
    argument is only used in log messages. -/
def check_path_env (w : VWorld) (_name search_pattern : String) : Bool :=
  (Py.pySplitChar w.pathVar ';').any
    (fun path => Py.pyContains (Py.pyLower path) (Py.pyLower search_pattern))

/-- Model of check_python: fails when `python --version` or `pip --version` exits
    non-zero; `stdout.split()[1]` raises IndexError when the version output
    has fewer than two whitespace-separated fields (`Except.error`); the
    3.10 warning and the PATH inspection only log. -/
def check_python (w : VWorld) : Except String Bool :=
  let r := run_command w "python --version"
  if r.returncode ≠ 0 then Except.ok false
  else
    match (Py.pySplitWS r.stdout)[1]? with
    | none => Except.error "IndexError"
    | some version =>
      let _warn := Py.pyStartsWith version "3.10."
      let r2 := run_command w "pip --version"
      if r2.returncode ≠ 0 then Except.ok false
      else
        let _pathInfo := check_path_env w "Python" "python"
        Except.ok true

def vs_paths : List String :=
  ["C:\\Program Files\\Microsoft Visual Studio\\2022\\Community",
   "C:\\Program Files (x86)\\Microsoft Visual Studio\\2022\\Community"]

def cl_paths : List String :=
  ["C:\\Program Files\\Microsoft Visual Studio\\2022\\Community\\VC\\Tools\\MSVC\\*\\bin\\Hostx64\\x64\\cl.exe",
   "C:\\Program Files (x86)\\Microsoft Visual Studio\\2022\\Community\\VC\\Tools\\MSVC\\*\\bin\\Hostx64\\x64\\cl.exe"]

def vswhere_path : String :=
  "C:\\Program Files (x86)\\Microsoft Visual Studio\\Installer\\vswhere.exe"

/-- Whether a glob pattern is non-relative for the Windows path flavour:
    it carries a drive (a name followed by a colon) or a leading root
    separator. pathlib refuses to glob such patterns. -/
def patternHasDriveOrRoot (p : String) : Bool :=
  match p.data with
  | _ :: ':' :: _ => true
  | '\\' :: _ => true
  | '/' :: _ => true
  | _ => false

/-- Model of list(Path().glob(pattern)) reduced to whether any match
    exists: pathlib raises NotImplementedError for a non-relative pattern
    (one with a drive or a root) before matching anything; for a relative
    pattern the world decides whether the glob finds a match. -/
def pathGlobAny (w : VWorld) (pattern : String) : Except String Bool :=
  if patternHasDriveOrRoot pattern then Except.error "NotImplementedError"
  else Except.ok (w.globHit pattern)

/-- The `for cl_path_pattern in cl_paths` loop of check_visual_studio:
    stops with True at the first pattern with matches; an exception raised
    by the glob call propagates. -/
def cl_found_loop (w : VWorld) : List String → Except String Bool
  | [] => Except.ok false
  | p :: rest =>
    match pathGlobAny w p with
    | Except.error e => Except.error e
    | Except.ok hit => if hit then Except.ok true else cl_found_loop w rest

/-- Model of check_visual_studio: probes the fixed Visual Studio install
    directories (logs only until the final conjunction), then globs for
    cl.exe with the two constant patterns. Those patterns are absolute
    Windows paths, so the first Path().glob call always raises an uncaught
    NotImplementedError (modeled as `Except.error`): this check can never
    return a boolean, and the vswhere workload queries further down are
    unreachable. -/
def check_visual_studio (w : VWorld) : Except String Bool :=
  let vs_found := vs_paths.any w.pathExists
  match cl_found_loop w cl_paths with
  | Except.error e => Except.error e
  | Except.ok cl_found => Except.ok (vs_found && cl_found)

/-- The line of `nvcc --version` output that `check_cuda` treats as the
    version line: line index 3 when there are more than 3 lines, otherwise
    the whole (stripped) stdout. -/
def nvcc_version_line (w : VWorld) : String :=
  let stdout := (run_command w "nvcc --version").stdout
  let lines := Py.pySplitLines stdout
  if lines.length > 3 then lines.getD 3 "" else stdout

/-- Model of check_cuda: fails only when `nvcc --version` exits non-zero. The
    version parse raises IndexError (modeled as `Except.error`) when the
    version line contains "release" case-insensitively but not literally,
    because the guard lowercases the line while the split does not. The
    CUDA_PATH variable, the PATH inspection and the cuDNN header probes
    only log (error/warning lines) and never change the result. -/
def check_cuda (w : VWorld) : Except String Bool :=
  if (run_command w "nvcc --version").returncode ≠ 0 then Except.ok false
  else
    match (if Py.pyContains (Py.pyLower (nvcc_version_line w)) "release" then
             match Py.pySplitIndex1 (nvcc_version_line w) "release" with
             | none => Except.error "IndexError"
             | some seg =>
               let cuda_version := (Py.pySplitChar (Py.pyStrip seg) ',').getD 0 ""
               let _warn := Py.pyStartsWith cuda_version "12.4"
               Except.ok ()
           else Except.ok ()) with
    | Except.error e => Except.error e
    | Except.ok _ =>
      let _cudaHomeLogged := w.cudaPath
      let _pathInfo := check_path_env w "CUDA" "cuda"
      let cudnn_paths : List (Option String) :=
        [(match w.cudaPath with
          | some home => some (Py.pyJoin (Py.pyJoin home "include") "cudnn.h")
          | none => none),
         some "C:\\Program Files\\NVIDIA GPU Computing Toolkit\\CUDA\\v12.4\\include\\cudnn.h",
         some "C:\\Program Files\\NVIDIA\\CUDNN\\v8.x\\include\\cudnn.h"]
      let _cudnn_found := cudnn_paths.any
        (fun p => match p with | some q => w.pathExists q | none => false)
      Except.ok true

/-- Model of check_pytorch: false when `find_spec("torch")` is `None`, otherwise
    the result is `torch.cuda.is_available()` (the bare `import torch` is
    modeled as succeeding whenever the spec is found). -/
def check_pytorch (w : VWorld) : Bool :=
  if w.findSpec "torch" = false then false
  else w.torchCudaAvailable

def ml_libraries : List String :=
  ["numpy", "scipy", "matplotlib", "pandas", "sklearn",
   "transformers", "datasets", "jupyter"]

/-- Model of check_ml_libraries: iterates over the fixed library list; a missing
    spec or an ImportError clears `all_installed`, and the loop continues
    (version introspection only logs). -/
def check_ml_libraries (w : VWorld) : Bool :=
  ml_libraries.foldl
    (fun all_installed m =>
      if w.findSpec m = false then false
      else if w.importOk m then all_installed else false)
    true

/-- The `(name, result)` pairs produced by `run_all_checks`'s loop over the
    five checks, in order; an uncaught exception from `check_python`
    (IndexError), `check_visual_studio` (NotImplementedError) or
    `check_cuda` (IndexError) aborts the loop and propagates. -/
def check_entries (w : VWorld) : Except String (List (String × Bool)) :=
  match check_python w with
  | Except.error e => Except.error e
  | Except.ok p =>
    match check_visual_studio w with
    | Except.error e => Except.error e
    | Except.ok v =>
      match check_cuda w with
      | Except.error e => Except.error e
      | Except.ok c =>
        Except.ok [("Python 3.10", p), ("Visual Studio 2022", v), ("CUDA 12.4", c),
                   ("PyTorch con CUDA", check_pytorch w),
                   ("Bibliotecas ML/NLP", check_ml_libraries w)]

/-- Model of run_all_checks: runs the five checks (after the purely informational
    system dump), then computes `all_pass` with the summary loop that clears
    it on every failed result. -/
def run_all_checks (w : VWorld) : Except String (Bool × List (String × Bool)) :=
  match check_entries w with
  | Except.error e => Except.error e
  | Except.ok results =>
    let all_pass := results.foldl (fun acc r => if r.2 then acc else false) true
    Except.ok (all_pass, results)

/-- The `__main__` block of verify.py: on a non-Windows platform it exits 1
    before any check; the admin test only logs a warning; otherwise the exit
    status is 0 iff `run_all_checks` returned true. -/
def mainV (w : VWorld) : Except String (Nat × List (String × Bool)) :=
  if w.platformSystem ≠ "Windows" then Except.ok (1, [])
  else
    match run_all_checks w with
    | Except.error e => Except.error e
    | Except.ok br => Except.ok ((if br.1 then 0 else 1), br.2)

end Verify

def wVOk : Verify.VWorld :=
  ⟨"Windows", true,
   fun c =>
     if c = "nvcc --version" then
       CmdBehavior.ok ⟨"nvcc: NVIDIA (R) Cuda compiler driver\nCopyright (c) 2005-2024 NVIDIA Corporation\nBuilt on Thu_Mar_28\nCuda compilation tools, release 12.4, V12.4.131\nBuild cuda_12.4.r12.4", "", 0⟩
     else CmdBehavior.ok ⟨"Python 3.10.6", "", 0⟩,
   "C:\\cuda\\bin;C:\\Python310", some "C:\\cuda", fun _ => true, fun _ => true,
   fun _ => true, fun _ => true, true⟩

def wVRel : Verify.VWorld :=
  ⟨"Windows", true,
   fun c =>
     if c = "nvcc --version" then
       CmdBehavior.ok ⟨"a\nb\nc\nCuda compilation tools, Release 12.4", "", 0⟩
     else CmdBehavior.ok ⟨"Python 3.10.6", "", 0⟩,
   "", none, fun _ => false, fun _ => false, fun _ => true, fun _ => true, true⟩

def wVNoCuda : Verify.VWorld :=
  ⟨"Windows", true,
   fun c =>
     if c = "nvcc --version" then
       CmdBehavior.ok ⟨"x\ny\nz\nCuda compilation tools, release 11.8, V11.8.89", "", 0⟩
     else CmdBehavior.ok ⟨"Python 3.9.1", "", 0⟩,
   "", none, fun _ => false, fun _ => false, fun _ => false, fun _ => false, false⟩

/- ===================== setup_environment.py (orchestrator) ===================== -/

namespace SetupEnvironment

/-- Observable side effects of the orchestrator: a helper script was run, an
    interactive prompt was issued, or the reboot command was dispatched. -/
inductive Event
  | ranScript : String → Event
  | prompted : String → Event
  | reboot : Event
deriving DecidableEq, Repr

/-- Process-local state threaded through the orchestrator: the index of the
    next operator answer to consume, and the ordered trace of events. -/
structure PState where
  idx : Nat
  trace : List Event
deriving DecidableEq, Repr

/-- The environment `setup_environment.py` runs against. `fileExists` models
    `os.path.exists` for the helper scripts, `scriptOk` whether running the
    script exits 0 (with exceptions mapped to failure, as in
    `run_powershell_script`/`run_python_script`), and `answer n` the
    operator's n-th interactive answer. -/
structure OrchWorld where
  platformSystem : String
  isAdmin : Bool
  fileExists : String → Bool
  scriptOk : String → Bool
  answer : Nat → String

def init : PState := ⟨0, []⟩

/-- Model of input: issue a prompt (identified by a short tag) and consume the
    next operator answer. -/
def inputP (w : OrchWorld) (tag : String) (s : PState) : String × PState :=
  (w.answer s.idx, ⟨s.idx + 1, s.trace ++ [Event.prompted tag]⟩)

/-- Model of run_powershell_script: returns False without running anything when the
    script file is missing; otherwise runs it and maps a zero exit code to
    True (CalledProcessError and other exceptions are caught and yield
    False, folded into `scriptOk`). -/
def run_powershell_script (w : OrchWorld) (script : String) (s : PState) : Bool × PState :=
  if w.fileExists script then
    (w.scriptOk script, ⟨s.idx, s.trace ++ [Event.ranScript script]⟩)
  else (false, s)

/-- Model of run_python_script: same structure as `run_powershell_script`, invoking
    the interpreter instead of powershell. -/
def run_python_script (w : OrchWorld) (script : String) (s : PState) : Bool × PState :=
  if w.fileExists script then
    (w.scriptOk script, ⟨s.idx, s.trace ++ [Event.ranScript script]⟩)
  else (false, s)

/-- Model of verify_cleanup: runs verify_cleanup.ps1 and reports its success. -/
def verify_cleanup (w : OrchWorld) (s : PState) : Bool × PState :=
  run_powershell_script w "verify_cleanup.ps1" s

/-- The tail of `process_cleanup` after a successful cleanup: the reboot
    prompt. Answering "S" dispatches the reboot command and calls
    `sys.exit(0)` (modeled as `Except.error 0`); otherwise the function
    returns its success value True. -/
def restartStep (w : OrchWorld) (s : PState) : Except Nat Bool × PState :=
  let p := inputP w "restart" s
  if Py.pyUpper p.1 = "S" then
    (Except.error 0, ⟨p.2.idx, p.2.trace ++ [Event.reboot]⟩)
  else (Except.ok true, p.2)

/-- Model of process_cleanup: runs cleanup.ps1; on script failure returns False
    immediately (only a warning is logged). On success it runs the cleanup
    verifier; if that detects leftovers the operator is asked to retry
    (recursing) and, declining, whether to continue anyway (returning False
    when declined). The successful paths end at the reboot prompt. The fuel
    argument bounds the user-driven retry recursion. -/
def process_cleanup (w : OrchWorld) : Nat → PState → Option (Except Nat Bool × PState)
  | 0, _ => none
  | fuel + 1, s =>
    let c := run_powershell_script w "cleanup.ps1" s
    if c.1 then
      let v := verify_cleanup w c.2
      if v.1 then some (restartStep w v.2)
      else
        let retry := inputP w "retry_cleanup" v.2
        if Py.pyUpper retry.1 = "S" then process_cleanup w fuel retry.2
        else
          let cont := inputP w "continue_anyway" retry.2
          if Py.pyUpper cont.1 ≠ "S" then some (Except.ok false, cont.2)
          else some (restartStep w cont.2)
    else some (Except.ok false, c.2)

/-- Model of process_installation: runs install.ps1 (result messages only log). -/
def process_installation (w : OrchWorld) (s : PState) : Bool × PState :=
  run_powershell_script w "install.ps1" s

/-- Model of process_verification: runs verify.py through the interpreter. -/
def process_verification (w : OrchWorld) (s : PState) : Bool × PState :=
  run_python_script w "verify.py" s

/-- Model of process_cudnn_setup: asks whether cuDNN was already downloaded; on "S"
    runs setup_cudnn.ps1 and reports its result, otherwise returns True
    (installing later is not a failure). -/
def process_cudnn_setup (w : OrchWorld) (s : PState) : Bool × PState :=
  let choice := inputP w "cudnn_download" s
  if Py.pyUpper choice.1 = "S" then run_powershell_script w "setup_cudnn.ps1" choice.2
  else (true, choice.2)

/-- The boolean CLI flags of `setup_environment.py`. -/
structure Args where
  clean : Bool
  verify_cleanup : Bool
  install : Bool
  verify : Bool
  cudnn : Bool
  full : Bool
  requirements : Bool
deriving DecidableEq, Repr

def anyFlagS (a : Args) : Bool :=
  a.clean || a.verify_cleanup || a.install || a.verify || a.cudnn || a.full || a.requirements

/-- The phase pipeline of `main`, entered after the platform/admin/flag
    gates. `success` starts True; each selected phase is run and ANDed into
    it. With `--full`, a failed cleanup returns 1 at once, and a failed
    cleanup verification asks the operator whether to proceed (returning 1
    when declined). A `sys.exit` raised inside `process_cleanup` (the reboot
    path) propagates as the process exit code. -/
def mainPhases (w : OrchWorld) (a : Args) (fuel : Nat) (s0 : PState) : Option (Nat × PState) :=
  match (if a.clean || a.full then process_cleanup w fuel s0
         else some (Except.ok true, s0)) with
  | none => none
  | some (Except.error code, s1) => some (code, s1)
  | some (Except.ok clean_ok, s1) =>
    let success := clean_ok
    if a.full && success = false then some (1, s1)
    else
      match (if a.verify_cleanup || (a.full && !a.clean) then
               let v := verify_cleanup w s1
               let success2 := v.1 && success
               if a.full && success2 = false then
                 let proceed := inputP w "proceed_after_verify_cleanup" v.2
                 if Py.pyUpper proceed.1 ≠ "S" then Except.error (1, proceed.2)
                 else Except.ok (success2, proceed.2)
               else Except.ok (success2, v.2)
             else Except.ok (success, s1)) with
      | Except.error r => some r
      | Except.ok (success, s2) =>
        let afterInstall : Bool × PState :=
          if a.install || a.full then
            let p := process_installation w s2
            (p.1 && success, p.2)
          else (success, s2)
        let afterCudnn : Bool × PState :=
          if a.cudnn || a.full then
            let p := process_cudnn_setup w afterInstall.2
            (p.1 && afterInstall.1, p.2)
          else afterInstall
        let afterVerify : Bool × PState :=
          if a.verify || a.full then
            let p := process_verification w afterCudnn.2
            (p.1 && afterCudnn.1, p.2)
          else afterCudnn
        some ((if afterVerify.1 then 0 else 1), afterVerify.2)

/-- Model of main of setup_environment.py: exits 1 on a non-Windows platform or
    without elevation before parsing arguments; with no flag set it prints
    the usage help and exits 0; with `--requirements` it prints the
    requirement list and exits 0; otherwise it runs the selected phases. -/
def mainS (w : OrchWorld) (a : Args) (fuel : Nat) : Option (Nat × PState) :=
  if w.platformSystem ≠ "Windows" then some (1, init)
  else if w.isAdmin = false then some (1, init)
  else if anyFlagS a = false then some (0, init)
  else if a.requirements then some (0, init)
  else mainPhases w a fuel init

end SetupEnvironment

def fullArgsS : SetupEnvironment.Args := ⟨false, false, false, false, false, true, false⟩

def wS1 : SetupEnvironment.OrchWorld :=
  ⟨"Windows", true, fun _ => true,
   fun s => if s = "install.ps1" then false else true,
   fun _ => "N"⟩

def wS2 : SetupEnvironment.OrchWorld :=
  ⟨"Windows", true, fun _ => true,
   fun s => if s = "cleanup.ps1" then false else true,
   fun _ => "N"⟩

def wS3 : SetupEnvironment.OrchWorld :=
  ⟨"Windows", true, fun _ => true,
   fun s => if s = "verify_cleanup.ps1" then false else true,
   fun _ => "N"⟩

def wSLin : SetupEnvironment.OrchWorld :=
  ⟨"Linux", true, fun _ => true, fun _ => true, fun _ => "N"⟩

def cudnnArgsS : SetupEnvironment.Args := ⟨false, false, false, false, true, false, false⟩

/- ===================== Named concrete inputs used by the theorems ===================== -/

def allT : TestCuda.TestArgs := ⟨false, false, false, false, true⟩

def noArgsT : TestCuda.TestArgs := ⟨false, false, false, false, false⟩

def driverOnlyT : TestCuda.TestArgs := ⟨true, false, false, false, false⟩

def noArgsS : SetupEnvironment.Args := ⟨false, false, false, false, false, false, false⟩

def wLinV : Verify.VWorld :=
  ⟨"Linux", true, fun _ => CmdBehavior.ok ⟨"", "", 0⟩, "", none,
   fun _ => false, fun _ => false, fun _ => false, fun _ => false, false⟩

def resAllPassT : List (String × Bool) :=
  [("driver", true), ("nvcc", true), ("pytorch", true), ("compile", true)]

def resAllPassV : List (String × Bool) :=
  [("Python 3.10", true), ("Visual Studio 2022", true), ("CUDA 12.4", true),
   ("PyTorch con CUDA", true), ("Bibliotecas ML/NLP", true)]

/-- Number of interactive prompts recorded in an orchestrator trace. -/
def promptCount : List SetupEnvironment.Event → Nat
  | [] => 0
  | SetupEnvironment.Event.prompted _ :: rest => promptCount rest + 1
  | _ :: rest => promptCount rest

/-- A line of driver-tool output is parse-safe when, whenever it carries one
    of the version labels, it also has a colon (so that `split(':')[1]` is
    in bounds). -/
abbrev smiLineSafe (line : String) : Prop :=
  (Py.pyContains line "Driver Version" = true → 2 ≤ (Py.pySplitChar line ':').length) ∧
  (Py.pyContains line "CUDA Version" = true → 2 ≤ (Py.pySplitChar line ':').length)

def wRaiseT : TestCuda.ProbeWorld :=
  ⟨"Windows", true, fun _ => CmdBehavior.raises "boom", TestCuda.TorchStatus.notInstalled, none⟩

/- ===================== Helper lemmas ===================== -/

theorem afterSub_isSome_of_containsC (pat : List Char) :
    ∀ hay : List Char, Py.containsC pat hay = true → ∃ r, Py.afterSub pat hay = some r := by
  intro hay
  induction hay with
  | nil =>
      intro h
      simp only [Py.containsC] at h
      exact ⟨[], by simp [Py.afterSub, h]⟩
  | cons c rest ih =>
      intro h
      by_cases hp : Py.isPrefixC pat (c :: rest) = true
      · exact ⟨List.drop pat.length (c :: rest), by simp [Py.afterSub, hp]⟩
      · have hrest : Py.containsC pat rest = true := by
          simp only [Py.containsC, Bool.or_eq_true] at h
          rcases h with h | h
          · exact absurd h hp
          · exact h
        obtain ⟨r, hr⟩ := ih hrest
        exact ⟨r, by simp [Py.afterSub, hp, hr]⟩

theorem pySplitIndex1_isSome_of_pyContains (hay pat : String)
    (h : Py.pyContains hay pat = true) : ∃ seg, Py.pySplitIndex1 hay pat = some seg := by
  obtain ⟨r, hr⟩ := afterSub_isSome_of_containsC pat.data hay.data h
  exact ⟨String.mk (Py.uptoSub pat.data r), by simp [Py.pySplitIndex1, hr]⟩

theorem runStep_inv (sel : Bool) (name : String) (result : Bool)
    (st : Bool × List (String × Bool)) (h : st.1 = st.2.all (fun x => x.2)) :
    (TestCuda.runStep sel name result st).1 =
      (TestCuda.runStep sel name result st).2.all (fun x => x.2) := by
  cases sel <;> simp [TestCuda.runStep, h]

theorem exists_ok_of_ne_error {α : Type} (x : Except String α)
    (h : ∀ e, x ≠ Except.error e) : ∃ v, x = Except.ok v := by
  cases x with
  | error e => exact absurd rfl (h e)
  | ok v => exact ⟨v, rfl⟩

theorem parse_smi_line_total (st : TestCuda.SmiInfo) (line : String) (h : smiLineSafe line) :
    ∃ st2, TestCuda.parse_smi_line st line = Except.ok st2 := by
  obtain ⟨h1, h2⟩ := h
  have hget : 2 ≤ (Py.pySplitChar line ':').length →
      ∃ v, (Py.pySplitChar line ':')[1]? = some v := by
    intro hq
    cases hl : Py.pySplitChar line ':' with
    | nil => rw [hl] at hq; simp at hq
    | cons x t =>
        cases t with
        | nil => rw [hl] at hq; simp at hq
        | cons y t2 => exact ⟨y, by simp⟩
  apply exists_ok_of_ne_error
  intro e hcon
  unfold TestCuda.parse_smi_line at hcon
  by_cases hd : Py.pyContains line "Driver Version" = true
  · obtain ⟨v, hv⟩ := hget (h1 hd)
    by_cases hc : Py.pyContains line "CUDA Version" = true
    · obtain ⟨v2, hv2⟩ := hget (h2 hc)
      simp [hd, hc, hv, hv2] at hcon
    · simp [hd, hc, hv] at hcon
  · by_cases hc : Py.pyContains line "CUDA Version" = true
    · obtain ⟨v2, hv2⟩ := hget (h2 hc)
      simp [hd, hc, hv2] at hcon
    · simp [hd, hc] at hcon

theorem foldSmi_total (lines : List String) (h : ∀ l ∈ lines, smiLineSafe l) :
    ∀ st, ∃ st2, TestCuda.foldSmi st lines = Except.ok st2 := by
  induction lines with
  | nil => intro st; exact ⟨st, rfl⟩
  | cons l rest ih =>
      intro st
      obtain ⟨st1, h1⟩ := parse_smi_line_total st l (h l (by simp))
      obtain ⟨st2, h2⟩ := ih (fun x hx => h x (by simp [hx])) st1
      exact ⟨st2, by simp [TestCuda.foldSmi, h1, h2]⟩

theorem check_cuda_driver_total (w : TestCuda.ProbeWorld)
    (h : ∀ l ∈ Py.pySplitChar (TestCuda.run_command w "nvidia-smi").stdout '\n', smiLineSafe l) :
    ∃ b, TestCuda.check_cuda_driver w = Except.ok b := by
  unfold TestCuda.check_cuda_driver
  by_cases hrc : (TestCuda.run_command w "nvidia-smi").returncode ≠ 0
  · exact ⟨false, by simp [hrc]⟩
  · obtain ⟨st2, h2⟩ := foldSmi_total _ h (none, none, none)
    exact ⟨true, by simp [hrc, h2]⟩

theorem runChecks_ok_of_driver_ok (w : TestCuda.ProbeWorld) (a : TestCuda.TestArgs)
    (b : Bool) (hb : TestCuda.check_cuda_driver w = Except.ok b) :
    ∃ v, TestCuda.runChecks w a = Except.ok v := by
  unfold TestCuda.runChecks
  by_cases hsel : (a.driver || a.all) = true
  · rw [if_pos hsel, hb]
    exact ⟨_, rfl⟩
  · rw [if_neg hsel]
    exact ⟨_, rfl⟩

theorem runChecks_exit_aux (w : TestCuda.ProbeWorld) (a : TestCuda.TestArgs)
    (st0 : Bool × List (String × Bool)) (h0 : st0.1 = st0.2.all (fun x => x.2))
    (c : Nat) (res : List (String × Bool))
    (h : Except.ok
          ((if (TestCuda.runStep (a.compile || a.all) "compile" (TestCuda.generate_cuda_program w)
                 (TestCuda.runStep (a.pytorch || a.all) "pytorch" (TestCuda.test_pytorch_cuda w)
                   (TestCuda.runStep (a.nvcc || a.all) "nvcc" (TestCuda.check_nvcc w) st0))).1
            then (0 : Nat) else 1),
           (TestCuda.runStep (a.compile || a.all) "compile" (TestCuda.generate_cuda_program w)
             (TestCuda.runStep (a.pytorch || a.all) "pytorch" (TestCuda.test_pytorch_cuda w)
               (TestCuda.runStep (a.nvcc || a.all) "nvcc" (TestCuda.check_nvcc w) st0))).2) =
          (Except.ok (c, res) : Except String (Nat × List (String × Bool)))) :
    c = (if res.all (fun x => x.2) then 0 else 1) := by
  have i1 := runStep_inv (a.nvcc || a.all) "nvcc" (TestCuda.check_nvcc w) st0 h0
  have i2 := runStep_inv (a.pytorch || a.all) "pytorch" (TestCuda.test_pytorch_cuda w) _ i1
  have i3 := runStep_inv (a.compile || a.all) "compile" (TestCuda.generate_cuda_program w) _ i2
  simp only [Except.ok.injEq, Prod.mk.injEq] at h
  obtain ⟨hc, hres⟩ := h
  rw [← hc, ← hres, i3]

theorem runChecks_exit_spec (w : TestCuda.ProbeWorld) (a : TestCuda.TestArgs)
    (c : Nat) (res : List (String × Bool)) (h : TestCuda.runChecks w a = Except.ok (c, res)) :
    c = (if res.all (fun x => x.2) then 0 else 1) := by
  unfold TestCuda.runChecks at h
  by_cases hsel : (a.driver || a.all) = true
  · rw [if_pos hsel] at h
    cases hdr : TestCuda.check_cuda_driver w with
    | error e => rw [hdr] at h; simp at h
    | ok b =>
        rw [hdr] at h
        exact runChecks_exit_aux w a (true && b, [("driver", b)]) (by simp) c res h
  · rw [if_neg hsel] at h
    exact runChecks_exit_aux w a (true, []) (by simp) c res h

theorem check_visual_studio_raises (w : Verify.VWorld) :
    Verify.check_visual_studio w = Except.error "NotImplementedError" := rfl

theorem run_all_checks_never_ok (w : Verify.VWorld) (v : Bool × List (String × Bool)) :
    Verify.run_all_checks w ≠ Except.ok v := by
  intro h
  unfold Verify.run_all_checks Verify.check_entries at h
  cases hp : Verify.check_python w with
  | error e => rw [hp] at h; simp at h
  | ok p => rw [hp, check_visual_studio_raises w] at h; simp at h

theorem orch_halt_on_cleanup_fail (w : SetupEnvironment.OrchWorld) (fuel : Nat)
    (hplat : w.platformSystem = "Windows") (hadmin : w.isAdmin = true)
    (hex : w.fileExists "cleanup.ps1" = true) (hok : w.scriptOk "cleanup.ps1" = false) :
    SetupEnvironment.mainS w fullArgsS (fuel + 1) =
      some (1, ⟨0, [SetupEnvironment.Event.ranScript "cleanup.ps1"]⟩) := by
  simp [SetupEnvironment.mainS, SetupEnvironment.mainPhases, SetupEnvironment.process_cleanup,
        SetupEnvironment.run_powershell_script, SetupEnvironment.init, SetupEnvironment.anyFlagS,
        fullArgsS, hplat, hadmin, hex, hok]

theorem orch_continue_after_install_fail (w : SetupEnvironment.OrchWorld) (fuel : Nat)
    (hplat : w.platformSystem = "Windows") (hadmin : w.isAdmin = true)
    (hex1 : w.fileExists "cleanup.ps1" = true) (hok1 : w.scriptOk "cleanup.ps1" = true)
    (hex2 : w.fileExists "verify_cleanup.ps1" = true)
    (hok2 : w.scriptOk "verify_cleanup.ps1" = true)
    (hans0 : Py.pyUpper (w.answer 0) ≠ "S")
    (hex3 : w.fileExists "install.ps1" = true) (hok3 : w.scriptOk "install.ps1" = false)
    (hans1 : Py.pyUpper (w.answer 1) ≠ "S")
    (hex4 : w.fileExists "verify.py" = true) :
    SetupEnvironment.mainS w fullArgsS (fuel + 1) =
      some (1, ⟨2, [SetupEnvironment.Event.ranScript "cleanup.ps1",
                    SetupEnvironment.Event.ranScript "verify_cleanup.ps1",
                    SetupEnvironment.Event.prompted "restart",
                    SetupEnvironment.Event.ranScript "verify_cleanup.ps1",
                    SetupEnvironment.Event.ranScript "install.ps1",
                    SetupEnvironment.Event.prompted "cudnn_download",
                    SetupEnvironment.Event.ranScript "verify.py"]⟩) := by
  simp [SetupEnvironment.mainS, SetupEnvironment.mainPhases, SetupEnvironment.process_cleanup,
        SetupEnvironment.run_powershell_script, SetupEnvironment.run_python_script,
        SetupEnvironment.verify_cleanup, SetupEnvironment.restartStep, SetupEnvironment.inputP,
        SetupEnvironment.process_installation, SetupEnvironment.process_cudnn_setup,
        SetupEnvironment.process_verification, SetupEnvironment.init, SetupEnvironment.anyFlagS,
        fullArgsS, hplat, hadmin, hex1, hok1, hex2, hok2, hans0, hex3, hok3, hans1, hex4]

theorem cleanup_script_fail_no_prompt (w : SetupEnvironment.OrchWorld) (fuel : Nat)
    (s : SetupEnvironment.PState)
    (hex : w.fileExists "cleanup.ps1" = true) (hok : w.scriptOk "cleanup.ps1" = false) :
    SetupEnvironment.process_cleanup w (fuel + 1) s =
      some (Except.ok false, ⟨s.idx, s.trace ++ [SetupEnvironment.Event.ranScript "cleanup.ps1"]⟩) := by
  simp [SetupEnvironment.process_cleanup, SetupEnvironment.run_powershell_script, hex, hok]

theorem cleanup_verify_fail_prompts (w : SetupEnvironment.OrchWorld) (fuel : Nat)
    (s : SetupEnvironment.PState)
    (hex1 : w.fileExists "cleanup.ps1" = true) (hok1 : w.scriptOk "cleanup.ps1" = true)
    (hex2 : w.fileExists "verify_cleanup.ps1" = true)
    (hok2 : w.scriptOk "verify_cleanup.ps1" = false)
    (hans0 : Py.pyUpper (w.answer s.idx) ≠ "S")
    (hans1 : Py.pyUpper (w.answer (s.idx + 1)) ≠ "S") :
    SetupEnvironment.process_cleanup w (fuel + 1) s =
      some (Except.ok false,
            ⟨s.idx + 2, s.trace ++ [SetupEnvironment.Event.ranScript "cleanup.ps1",
                                    SetupEnvironment.Event.ranScript "verify_cleanup.ps1",
                                    SetupEnvironment.Event.prompted "retry_cleanup",
                                    SetupEnvironment.Event.prompted "continue_anyway"]⟩) := by
  simp [SetupEnvironment.process_cleanup, SetupEnvironment.run_powershell_script,
        SetupEnvironment.verify_cleanup, SetupEnvironment.inputP, hex1, hok1, hex2, hok2,
        hans0, hans1]

theorem cudnn_decline_returns_true (w : SetupEnvironment.OrchWorld)
    (s : SetupEnvironment.PState) (hans : Py.pyUpper (w.answer s.idx) ≠ "S") :
    SetupEnvironment.process_cudnn_setup w s =
      (true, ⟨s.idx + 1, s.trace ++ [SetupEnvironment.Event.prompted "cudnn_download"]⟩) := by
  simp [SetupEnvironment.process_cudnn_setup, SetupEnvironment.inputP, hans]

theorem cudnn_only_main_exit_zero (w : SetupEnvironment.OrchWorld) (fuel : Nat)
    (hplat : w.platformSystem = "Windows") (hadmin : w.isAdmin = true)
    (hans : Py.pyUpper (w.answer 0) ≠ "S") :
    SetupEnvironment.mainS w cudnnArgsS fuel =
      some (0, ⟨1, [SetupEnvironment.Event.prompted "cudnn_download"]⟩) := by
  simp [SetupEnvironment.mainS, SetupEnvironment.mainPhases, SetupEnvironment.process_cudnn_setup,
        SetupEnvironment.inputP, SetupEnvironment.init, SetupEnvironment.anyFlagS,
        cudnnArgsS, hplat, hadmin, hans]

/-- C1: when the operating-system check fails, the orchestrator and the
    installation verifier exit with status 1 without attempting any phase or
    check, for every flag combination; contrary to the claim, the capability
    prober only logs a warning there and proceeds (see the counterexample). -/
theorem c1_theorem :
    (∀ (w : SetupEnvironment.OrchWorld) (a : SetupEnvironment.Args) (fuel : Nat),
        w.platformSystem ≠ "Windows" →
        SetupEnvironment.mainS w a fuel = some (1, SetupEnvironment.init)) ∧
    (∀ w : Verify.VWorld, w.platformSystem ≠ "Windows" →
        Verify.mainV w = Except.ok (1, [])) := by
  constructor
  · intro w a fuel h
    unfold SetupEnvironment.mainS
    rw [if_pos h]
  · intro w h
    unfold Verify.mainV
    rw [if_pos h]

/-- C1 witness: concrete non-Windows worlds for the orchestrator and the
    verifier, both exiting 1 with an empty trace of operations. -/
theorem c1_witness :
    SetupEnvironment.mainS wSLin fullArgsS 1 = some (1, SetupEnvironment.init) ∧
      Verify.mainV wLinV = Except.ok (1, []) :=
  ⟨c1_theorem.1 wSLin fullArgsS 1 (by decide), c1_theorem.2 wLinV (by decide)⟩

/-- C1 counterexample: on a non-Windows platform the capability prober runs
    all four checks and exits 0, instead of exiting 1 without any check. -/
theorem c1_counterexample :
    wOkT.platformSystem ≠ "Windows" ∧
      TestCuda.mainT wOkT allT =
        Except.ok (0, [("driver", true), ("nvcc", true), ("pytorch", true), ("compile", true)]) :=
  ⟨by decide, rfl⟩

/-- C2: with no boolean flag set, the orchestrator (once the OS and
    privilege gates pass) prints only the usage help and exits 0 running no
    phase, while the prober treats the absence of flags exactly like its
    run-everything flag; the verifier takes no flags. -/
theorem c2_theorem :
    (∀ (w : SetupEnvironment.OrchWorld) (fuel : Nat),
        w.platformSystem = "Windows" → w.isAdmin = true →
        SetupEnvironment.mainS w noArgsS fuel = some (0, SetupEnvironment.init)) ∧
    (∀ w : TestCuda.ProbeWorld, TestCuda.mainT w noArgsT = TestCuda.mainT w allT) := by
  constructor
  · intro w fuel hplat hadmin
    simp [SetupEnvironment.mainS, SetupEnvironment.anyFlagS, SetupEnvironment.init,
          noArgsS, hplat, hadmin]
  · intro w
    rfl

/-- C2 witness: a concrete Windows admin world where the orchestrator with
    no flags exits 0 with nothing run, and a concrete world where the
    prober's no-flag run equals its all-flag run. -/
theorem c2_witness :
    SetupEnvironment.mainS wS1 noArgsS 1 = some (0, SetupEnvironment.init) ∧
      TestCuda.mainT wOkT noArgsT = TestCuda.mainT wOkT allT :=
  ⟨c2_theorem.1 wS1 1 rfl rfl, c2_theorem.2 wOkT⟩

/-- C2 counterexample: the prober with no flag set does not print help and
    exit 0; it runs all four checks and here exits 1. -/
theorem c2_counterexample :
    TestCuda.anyFlagT noArgsT = false ∧
      TestCuda.mainT wFailT noArgsT =
        Except.ok (1, [("driver", false), ("nvcc", false), ("pytorch", false), ("compile", false)]) :=
  ⟨rfl, rfl⟩

/-- C3: in the prober the aggregate result is the logical AND of the
    selected individual check results and the exit status is 0 exactly
    when that AND is true, 1 otherwise. In the verifier the claimed
    aggregation is unreachable code: check_visual_studio always raises an
    uncaught NotImplementedError, because list(Path().glob(pattern)) is
    called with constant absolute cl.exe patterns and pathlib refuses
    non-relative patterns, so run_all_checks never returns an aggregate at
    all (a bug in the code, which clearly intends every check to return a
    boolean that the summary loop then ANDs). -/
theorem c3_theorem :
    (∀ (w : TestCuda.ProbeWorld) (a : TestCuda.TestArgs) (c : Nat) (res : List (String × Bool)),
        TestCuda.mainT w a = Except.ok (c, res) →
        c = (if res.all (fun x => x.2) then 0 else 1)) ∧
    (∀ w : Verify.VWorld, Verify.check_visual_studio w = Except.error "NotImplementedError") ∧
    (∀ (w : Verify.VWorld) (v : Bool × List (String × Bool)),
        Verify.run_all_checks w ≠ Except.ok v) := by
  refine ⟨?_, ?_, ?_⟩
  · intro w a c res h
    exact runChecks_exit_spec w (TestCuda.adjustArgs a) c res h
  · exact check_visual_studio_raises
  · exact run_all_checks_never_ok

/-- C3 witness: a concrete all-passing prober world instantiating the
    exit-code conjunct, and a concrete Windows verifier world (python,
    pip and nvcc all succeed) on which the Visual Studio check raises and
    run_all_checks does not return the all-passing aggregate. -/
theorem c3_witness :
    (0 : Nat) = (if resAllPassT.all (fun x => x.2) then 0 else 1) ∧
      Verify.check_visual_studio wVOk = Except.error "NotImplementedError" ∧
      Verify.run_all_checks wVOk ≠ Except.ok (true, resAllPassV) :=
  ⟨c3_theorem.1 wOkT allT 0 resAllPassT rfl,
   c3_theorem.2.1 wVOk,
   c3_theorem.2.2 wVOk (true, resAllPassV)⟩

/-- C4: a check whose underlying command exits non-zero (or whose
    invocation raises, mapped to exit code -1 by run_command) yields a
    failed boolean result instead of an exception, and the remaining
    selected checks still execute with their own results recorded. -/
theorem c4_theorem :
    (∀ w : TestCuda.ProbeWorld,
        (TestCuda.run_command w "nvidia-smi").returncode ≠ 0 →
        (TestCuda.run_command w "nvcc --version").returncode ≠ 0 →
        TestCuda.mainT w allT =
          Except.ok (1, [("driver", false), ("nvcc", false),
                         ("pytorch", TestCuda.test_pytorch_cuda w),
                         ("compile", TestCuda.generate_cuda_program w)])) ∧
    (∀ (w : TestCuda.ProbeWorld) (command e : String),
        w.run command = CmdBehavior.raises e →
        (TestCuda.run_command w command).returncode = -1) := by
  constructor
  · intro w h1 h2
    have hd : TestCuda.check_cuda_driver w = Except.ok false := by
      unfold TestCuda.check_cuda_driver
      rw [if_pos h1]
    have hn : TestCuda.check_nvcc w = false := by
      unfold TestCuda.check_nvcc
      simp [h2]
    show TestCuda.runChecks w (TestCuda.adjustArgs allT) = _
    unfold TestCuda.runChecks
    rw [show TestCuda.adjustArgs allT = allT from rfl, if_pos (by decide), hd]
    simp [TestCuda.runStep, hn, allT]
  · intro w command e h
    unfold TestCuda.run_command
    rw [h]

/-- C4 witness: a world where every command exits 1 (driver and compiler
    checks fail but the prober still runs all four checks and exits 1), and
    a world where the subprocess call raises (mapped to returncode -1). -/
theorem c4_witness :
    TestCuda.mainT wFailT allT =
        Except.ok (1, [("driver", false), ("nvcc", false), ("pytorch", false), ("compile", false)]) ∧
      (TestCuda.run_command wRaiseT "nvidia-smi").returncode = -1 :=
  ⟨c4_theorem.1 wFailT (by decide) (by decide), c4_theorem.2 wRaiseT "nvidia-smi" "boom" rfl⟩

/-- C5: in full-pipeline mode, a failed cleanup phase halts the run with
    exit 1 (no later phase runs), and a failed cleanup verification prompts
    the operator; contrary to the claim, a failed installation phase does
    not halt the remaining phases: the cuDNN and verification phases still
    execute and only the final exit status records the failure. -/
theorem c5_theorem :
    (∀ (w : SetupEnvironment.OrchWorld) (fuel : Nat),
        w.platformSystem = "Windows" → w.isAdmin = true →
        w.fileExists "cleanup.ps1" = true → w.scriptOk "cleanup.ps1" = false →
        SetupEnvironment.mainS w fullArgsS (fuel + 1) =
          some (1, ⟨0, [SetupEnvironment.Event.ranScript "cleanup.ps1"]⟩)) ∧
    (∀ (w : SetupEnvironment.OrchWorld) (fuel : Nat),
        w.platformSystem = "Windows" → w.isAdmin = true →
        w.fileExists "cleanup.ps1" = true → w.scriptOk "cleanup.ps1" = true →
        w.fileExists "verify_cleanup.ps1" = true → w.scriptOk "verify_cleanup.ps1" = true →
        Py.pyUpper (w.answer 0) ≠ "S" →
        w.fileExists "install.ps1" = true → w.scriptOk "install.ps1" = false →
        Py.pyUpper (w.answer 1) ≠ "S" →
        w.fileExists "verify.py" = true →
        SetupEnvironment.mainS w fullArgsS (fuel + 1) =
          some (1, ⟨2, [SetupEnvironment.Event.ranScript "cleanup.ps1",
                        SetupEnvironment.Event.ranScript "verify_cleanup.ps1",
                        SetupEnvironment.Event.prompted "restart",
                        SetupEnvironment.Event.ranScript "verify_cleanup.ps1",
                        SetupEnvironment.Event.ranScript "install.ps1",
                        SetupEnvironment.Event.prompted "cudnn_download",
                        SetupEnvironment.Event.ranScript "verify.py"]⟩)) :=
  ⟨orch_halt_on_cleanup_fail, orch_continue_after_install_fail⟩

/-- C5 witness: concrete full-pipeline runs exercising both conjuncts. -/
theorem c5_witness :
    SetupEnvironment.mainS wS2 fullArgsS 1 =
        some (1, ⟨0, [SetupEnvironment.Event.ranScript "cleanup.ps1"]⟩) ∧
      SetupEnvironment.mainS wS1 fullArgsS 1 =
        some (1, ⟨2, [SetupEnvironment.Event.ranScript "cleanup.ps1",
                      SetupEnvironment.Event.ranScript "verify_cleanup.ps1",
                      SetupEnvironment.Event.prompted "restart",
                      SetupEnvironment.Event.ranScript "verify_cleanup.ps1",
                      SetupEnvironment.Event.ranScript "install.ps1",
                      SetupEnvironment.Event.prompted "cudnn_download",
                      SetupEnvironment.Event.ranScript "verify.py"]⟩) :=
  ⟨c5_theorem.1 wS2 0 rfl rfl rfl rfl,
   c5_theorem.2 wS1 0 rfl rfl rfl rfl rfl rfl (by decide) rfl rfl (by decide) rfl⟩

/-- C5 counterexample: in full-pipeline mode the installation phase fails,
    yet the cuDNN prompt and the verification phase still execute, so a
    failed mandatory phase does not halt the remaining phases. -/
theorem c5_counterexample :
    wS1.scriptOk "install.ps1" = false ∧
      SetupEnvironment.mainS wS1 fullArgsS 1 =
        some (1, ⟨2, [SetupEnvironment.Event.ranScript "cleanup.ps1",
                      SetupEnvironment.Event.ranScript "verify_cleanup.ps1",
                      SetupEnvironment.Event.prompted "restart",
                      SetupEnvironment.Event.ranScript "verify_cleanup.ps1",
                      SetupEnvironment.Event.ranScript "install.ps1",
                      SetupEnvironment.Event.prompted "cudnn_download",
                      SetupEnvironment.Event.ranScript "verify.py"]⟩) :=
  ⟨rfl, rfl⟩

/-- C6: when the cleanup script itself fails, process_cleanup returns
    failure without asking the operator anything; the retry and
    continue-anyway prompts are issued only when the cleanup script
    succeeds but the cleanup verification detects leftover components. -/
theorem c6_theorem :
    (∀ (w : SetupEnvironment.OrchWorld) (fuel : Nat) (s : SetupEnvironment.PState),
        w.fileExists "cleanup.ps1" = true → w.scriptOk "cleanup.ps1" = false →
        SetupEnvironment.process_cleanup w (fuel + 1) s =
          some (Except.ok false,
                ⟨s.idx, s.trace ++ [SetupEnvironment.Event.ranScript "cleanup.ps1"]⟩)) ∧
    (∀ (w : SetupEnvironment.OrchWorld) (fuel : Nat) (s : SetupEnvironment.PState),
        w.fileExists "cleanup.ps1" = true → w.scriptOk "cleanup.ps1" = true →
        w.fileExists "verify_cleanup.ps1" = true → w.scriptOk "verify_cleanup.ps1" = false →
        Py.pyUpper (w.answer s.idx) ≠ "S" → Py.pyUpper (w.answer (s.idx + 1)) ≠ "S" →
        SetupEnvironment.process_cleanup w (fuel + 1) s =
          some (Except.ok false,
                ⟨s.idx + 2, s.trace ++ [SetupEnvironment.Event.ranScript "cleanup.ps1",
                                        SetupEnvironment.Event.ranScript "verify_cleanup.ps1",
                                        SetupEnvironment.Event.prompted "retry_cleanup",
                                        SetupEnvironment.Event.prompted "continue_anyway"]⟩)) :=
  ⟨cleanup_script_fail_no_prompt, cleanup_verify_fail_prompts⟩

/-- C6 witness: concrete worlds exercising the no-prompt failure path and
    the verification-failure prompt path. -/
theorem c6_witness :
    SetupEnvironment.process_cleanup wS2 1 SetupEnvironment.init =
        some (Except.ok false, ⟨0, [SetupEnvironment.Event.ranScript "cleanup.ps1"]⟩) ∧
      SetupEnvironment.process_cleanup wS3 1 SetupEnvironment.init =
        some (Except.ok false,
              ⟨2, [SetupEnvironment.Event.ranScript "cleanup.ps1",
                   SetupEnvironment.Event.ranScript "verify_cleanup.ps1",
                   SetupEnvironment.Event.prompted "retry_cleanup",
                   SetupEnvironment.Event.prompted "continue_anyway"]⟩) :=
  ⟨c6_theorem.1 wS2 0 SetupEnvironment.init rfl rfl,
   c6_theorem.2 wS3 0 SetupEnvironment.init rfl rfl rfl rfl (by decide) (by decide)⟩

/-- C6 counterexample: the cleanup script fails, and process_cleanup
    returns failure with zero prompts in its trace, so the operator is not
    asked to retry or proceed. -/
theorem c6_counterexample :
    wS2.scriptOk "cleanup.ps1" = false ∧
      SetupEnvironment.process_cleanup wS2 1 SetupEnvironment.init =
        some (Except.ok false, ⟨0, [SetupEnvironment.Event.ranScript "cleanup.ps1"]⟩) ∧
      promptCount [SetupEnvironment.Event.ranScript "cleanup.ps1"] = 0 :=
  ⟨rfl, rfl, rfl⟩

/-- C7: a prober run never ends in an uncaught exception provided every
    driver-tool output line carrying a version label also carries a colon;
    the claim's unconditional form fails because the label parse raises an
    uncaught IndexError on a label line without a colon (see the
    counterexample). -/
theorem c7_theorem (w : TestCuda.ProbeWorld) (a : TestCuda.TestArgs)
    (h : ∀ l ∈ Py.pySplitChar (TestCuda.run_command w "nvidia-smi").stdout '\n', smiLineSafe l) :
    ∃ v, TestCuda.mainT w a = Except.ok v := by
  obtain ⟨b, hb⟩ := check_cuda_driver_total w h
  exact runChecks_ok_of_driver_ok w (TestCuda.adjustArgs a) b hb

/-- C7 witness: a concrete world with colon-carrying driver output where
    the prober completes normally. -/
theorem c7_witness : ∃ v, TestCuda.mainT wOkT allT = Except.ok v :=
  c7_theorem wOkT allT (by decide)

/-- C7 counterexample: a driver-tool output line containing the label
    "Driver Version" but no colon makes the prober terminate with an
    uncaught IndexError instead of printing a summary, even though the
    command itself exited 0. -/
theorem c7_counterexample :
    (TestCuda.run_command wCrashT "nvidia-smi").returncode = 0 ∧
      TestCuda.mainT wCrashT driverOnlyT = Except.error "IndexError" :=
  ⟨rfl, rfl⟩

/-- C8: the compile-and-run check succeeds iff the kernel source compiles
    (exit 0), the binary exits 0, and its stdout contains the literal
    marker "Test PASSED"; absence of the marker fails the check regardless
    of the binary's exit code. -/
theorem c8_theorem (w : TestCuda.ProbeWorld) :
    TestCuda.generate_cuda_program w = true ↔
      ((TestCuda.run_command w (TestCuda.compile_cmd w)).returncode = 0 ∧
       (TestCuda.run_command w (TestCuda.exec_cmd w)).returncode = 0 ∧
       Py.pyContains (TestCuda.run_command w (TestCuda.exec_cmd w)).stdout "Test PASSED" = true) := by
  unfold TestCuda.generate_cuda_program
  by_cases h1 : (TestCuda.run_command w (TestCuda.compile_cmd w)).returncode = 0
  · rw [if_neg (by simp [h1])]
    by_cases h2 : (TestCuda.run_command w (TestCuda.exec_cmd w)).returncode = 0
    · rw [if_neg (by simp [h2])]
      simp [h1, h2]
    · rw [if_pos h2]
      simp [h1, h2]
  · rw [if_pos h1]
    simp [h1]

/-- C9: the verifier's CUDA check returns true whenever nvcc --version
    exits 0 and the version-line parse does not raise (in particular the
    CUDA_PATH variable being unset and the cuDNN header being absent only
    produce log lines); the claim's unconditional form fails because a
    version line carrying "release" only in mixed case raises an uncaught
    IndexError (see the counterexample). -/
theorem c9_theorem (w : Verify.VWorld)
    (hrc : (Verify.run_command w "nvcc --version").returncode = 0)
    (hrel : Py.pyContains (Py.pyLower (Verify.nvcc_version_line w)) "release" = true →
            Py.pyContains (Verify.nvcc_version_line w) "release" = true) :
    Verify.check_cuda w = Except.ok true := by
  unfold Verify.check_cuda
  rw [if_neg (by simp [hrc])]
  by_cases h1 : Py.pyContains (Py.pyLower (Verify.nvcc_version_line w)) "release" = true
  · obtain ⟨seg, hseg⟩ :=
      pySplitIndex1_isSome_of_pyContains (Verify.nvcc_version_line w) "release" (hrel h1)
    rw [if_pos h1, hseg]
  · rw [if_neg h1]

/-- C9 witness: a world with CUDA_PATH unset, no cuDNN header anywhere, and
    nvcc exiting 0 with a lowercase release banner: the check returns true. -/
theorem c9_witness :
    wVNoCuda.cudaPath = none ∧ Verify.check_cuda wVNoCuda = Except.ok true :=
  ⟨rfl, c9_theorem wVNoCuda rfl (fun _ => by decide)⟩

/-- C9 counterexample: nvcc --version exits 0 but its version line says
    "Release" in mixed case, so the check raises an uncaught IndexError
    instead of returning true. -/
theorem c9_counterexample :
    (Verify.run_command wVRel "nvcc --version").returncode = 0 ∧
      Verify.check_cuda wVRel = Except.error "IndexError" :=
  ⟨rfl, rfl⟩

/-- C10: declining the cuDNN download prompt makes process_cudnn_setup
    return true, so a skipped cuDNN configuration counts as success in the
    aggregate result: with only the cudnn flag the orchestrator exits 0. -/
theorem c10_theorem :
    (∀ (w : SetupEnvironment.OrchWorld) (s : SetupEnvironment.PState),
        Py.pyUpper (w.answer s.idx) ≠ "S" →
        SetupEnvironment.process_cudnn_setup w s =
          (true, ⟨s.idx + 1, s.trace ++ [SetupEnvironment.Event.prompted "cudnn_download"]⟩)) ∧
    (∀ (w : SetupEnvironment.OrchWorld) (fuel : Nat),
        w.platformSystem = "Windows" → w.isAdmin = true →
        Py.pyUpper (w.answer 0) ≠ "S" →
        SetupEnvironment.mainS w cudnnArgsS fuel =
          some (0, ⟨1, [SetupEnvironment.Event.prompted "cudnn_download"]⟩)) :=
  ⟨cudnn_decline_returns_true, cudnn_only_main_exit_zero⟩

/-- C10 witness: a concrete world answering "N" to the cuDNN prompt, where
    the phase returns true and the cudnn-only run exits 0. -/
theorem c10_witness :
    SetupEnvironment.process_cudnn_setup wS1 SetupEnvironment.init =
        (true, ⟨1, [SetupEnvironment.Event.prompted "cudnn_download"]⟩) ∧
      SetupEnvironment.mainS wS1 cudnnArgsS 1 =
        some (0, ⟨1, [SetupEnvironment.Event.prompted "cudnn_download"]⟩) :=
  ⟨c10_theorem.1 wS1 SetupEnvironment.init (by decide),
   c10_theorem.2 wS1 1 rfl rfl (by decide)⟩
